import Mathlib

/-!
Verification of the address subsystem of the rust-bitcoin repository
(`bitcoin/src/address/mod.rs`), shallowly embedded in Lean.

Rust strings are modelled as `List Char` (so that the byte length used by
`str::len()` can be computed as the sum of the UTF-8 sizes of the characters),
byte buffers as `List Nat`, and the phantom network-validation type parameter
as a runtime tag `NV` carried inside the `Address` structure.  The external
collaborators that the source treats as opaque (the generic base58 and bech32
codec primitives) are passed as function parameters.  Components of the
repository that are not part of the address module itself (network enums,
script templates, prefix constants) are modelled from the specification and
marked as such in their doc comments.
-/

namespace BitcoinAddress

/-- Modelled from the spec: `crate::network::TestnetVersion` is not in the
address module; the repository distinguishes testnet3 and testnet4. -/
inductive TestnetVersion
  | v3
  | v4
deriving DecidableEq, Repr

/-- Modelled from the spec: `crate::network::Network` is not in the address
module; networks are mainnet, the testnets, signet and regtest. -/
inductive Network
  | bitcoin
  | testnet (v : TestnetVersion)
  | signet
  | regtest
deriving DecidableEq, Repr

/-- Modelled from the spec: `crate::network::NetworkKind` is a 2-valued kind
used by legacy addresses. -/
inductive NetworkKind
  | main
  | test
deriving DecidableEq, Repr

/-- Modelled from the spec: `NetworkKind: From<Network>` collapses all
non-mainnet networks (testnet, regtest, signet) to `Test`, since legacy
base58 prefixes do not distinguish them. -/
def NetworkKind.ofNetwork : Network → NetworkKind
  | .bitcoin => .main
  | .testnet _ => .test
  | .signet => .test
  | .regtest => .test

/-- Known bech32 human-readable parts (`KnownHrp` in `address/mod.rs`). -/
inductive KnownHrp
  | mainnet
  | testnets
  | regtest
deriving DecidableEq, Repr

/-- Embeds `KnownHrp::from_network`: `Bitcoin => Mainnet`,
`Testnet(_) | Signet => Testnets`, `Regtest => Regtest`. -/
def KnownHrp.from_network : Network → KnownHrp
  | .bitcoin => .mainnet
  | .testnet _ => .testnets
  | .signet => .testnets
  | .regtest => .regtest

/-- Embeds `impl From<KnownHrp> for NetworkKind`. -/
def NetworkKind.ofKnownHrp : KnownHrp → NetworkKind
  | .mainnet => .main
  | .testnets => .test
  | .regtest => .test

/-- Witness program: version (0-16) and program bytes (2-40 bytes).  The
validity conditions that the Rust `WitnessProgram` type enforces at
construction are kept as the separate predicate `WitnessProgram.valid`. -/
structure WitnessProgram where
  version : Nat
  program : List Nat
deriving DecidableEq, Repr

/-- The construction-time invariant of `WitnessProgram` (from the spec and
`WitnessProgram::new`): version 0-16, program length 2-40 bytes, and for
version 0 the length must be exactly 20 or 32. -/
def WitnessProgram.valid (w : WitnessProgram) : Prop :=
  w.version ≤ 16 ∧ 2 ≤ w.program.length ∧ w.program.length ≤ 40 ∧
    (w.version = 0 → w.program.length = 20 ∨ w.program.length = 32)

instance (w : WitnessProgram) : Decidable w.valid := by
  unfold WitnessProgram.valid; infer_instance

/-- The inner representation of an address (`AddressInner` in
`address/mod.rs`): legacy pubkey-hash, legacy script-hash, or segwit
witness program.  Hashes are 20-byte buffers; the length invariant enforced
by the Rust hash newtypes is kept in `AddressInner.wf`. -/
inductive AddressInner
  | p2pkh (hash : List Nat) (network : NetworkKind)
  | p2sh (hash : List Nat) (network : NetworkKind)
  | segwit (program : WitnessProgram) (hrp : KnownHrp)
deriving DecidableEq, Repr

/-- Well-formedness that the Rust types guarantee for every constructed
address: hashes are exactly 20 bytes and witness programs satisfy their
construction invariant. -/
def AddressInner.wf : AddressInner → Prop
  | .p2pkh hash _ => hash.length = 20
  | .p2sh hash _ => hash.length = 20
  | .segwit program _ => program.valid

instance (i : AddressInner) : Decidable i.wf := by
  cases i <;> (unfold AddressInner.wf; infer_instance)

/-- The two network-validation typestates (`NetworkChecked` /
`NetworkUnchecked`), modelled as a runtime tag. -/
inductive NV
  | checked
  | unchecked
deriving DecidableEq, Repr

/-- The sealed marker trait `NetworkValidationUnchecked`: the only
implementer is `NetworkUnchecked`. -/
inductive NetworkValidationUncheckedImpl : NV → Prop
  | unchecked : NetworkValidationUncheckedImpl .unchecked

/-- A bitcoin address: the phantom validation parameter of the Rust
`Address<V>` is modelled as a `state` field next to the `AddressInner`. -/
structure Address where
  state : NV
  inner : AddressInner
deriving DecidableEq, Repr

/-- Embeds `Address::<NetworkUnchecked>::assume_checked`. -/
def Address.assume_checked (a : Address) : Address :=
  { state := .checked, inner := a.inner }

/-- Embeds `Address::<NetworkUnchecked>::is_valid_for_network`: compares the
embedded network tag with the tag derived from the supplied network. -/
def Address.is_valid_for_network (a : Address) (n : Network) : Bool :=
  match a.inner with
  | .p2pkh _ network => decide (network = NetworkKind.ofNetwork n)
  | .p2sh _ network => decide (network = NetworkKind.ofNetwork n)
  | .segwit _ hrp => decide (hrp = KnownHrp.from_network n)

/-- Error kinds of the base58 decoding path (`Base58Error` in
`address/error.rs`, reconstructed from its uses in `address/mod.rs`). -/
inductive Base58Error
  | decode
  | invalidBase58PayloadLength (length : Nat)
  | invalidLegacyPrefix (invalid : Nat)
  | legacyAddressTooLong (length : Nat)
deriving DecidableEq, Repr

/-- Error kinds of the bech32 decoding path (`Bech32Error` in
`address/error.rs`, reconstructed from its uses in `address/mod.rs`). -/
inductive Bech32Error
  | parseBech32
  | witnessVersion (invalid : Nat)
  | unknownHrp (hrp : List Char)
deriving DecidableEq, Repr

/-- The address-string parse error (`ParseError` in `address/error.rs`,
reconstructed from its uses in `address/mod.rs`).  `networkValidation`
carries the required network and the offending unchecked address. -/
inductive ParseError
  | networkValidation (required : Network) (address : Address)
  | base58 (e : Base58Error)
  | bech32 (e : Bech32Error)
  | unknownHrp (hrp : List Char)
deriving DecidableEq, Repr

/-- Embeds `Address::<NetworkUnchecked>::require_network`: on success returns
`self.assume_checked()`, on mismatch fails with
`NetworkValidationError { required, address: self }`. -/
def Address.require_network (a : Address) (required : Network) :
    Except ParseError Address :=
  if a.is_valid_for_network required then
    .ok a.assume_checked
  else
    .error (.networkValidation required a)

/-- UTF-8 byte length of a Rust string (what `str::len()` returns), for a
string modelled as its list of characters. -/
def utf8Len (s : List Char) : Nat :=
  (s.map Char.utf8Size).sum

/-- Modelled from the spec: the four legacy version bytes from
`crate::constants` (`PUBKEY_ADDRESS_PREFIX_MAIN`), which is not in src. -/
def PUBKEY_ADDRESS_PREFIX_MAIN : Nat := 0x00

/-- Modelled from the spec: `crate::constants::PUBKEY_ADDRESS_PREFIX_TEST`. -/
def PUBKEY_ADDRESS_PREFIX_TEST : Nat := 0x6f

/-- Modelled from the spec: `crate::constants::SCRIPT_ADDRESS_PREFIX_MAIN`. -/
def SCRIPT_ADDRESS_PREFIX_MAIN : Nat := 0x05

/-- Modelled from the spec: `crate::constants::SCRIPT_ADDRESS_PREFIX_TEST`. -/
def SCRIPT_ADDRESS_PREFIX_TEST : Nat := 0xc4

/-- The type of the external `base58::decode_check` collaborator (the spec
treats the generic Base58Check primitives as an external codec library):
given the input string it returns the decoded payload bytes with the
checksum already verified and removed, or `none` on a decoding or checksum
failure. -/
def Base58DecodeCheck : Type :=
  List Char → Option (List Nat)

/-- Embeds `Address::<NetworkUnchecked>::from_base58_str`, parameterized by
the external `base58::decode_check` collaborator: the 50-character guard is
checked first on `s.len()` (UTF-8 bytes); the decoded payload must convert
to a `[u8; 21]`, otherwise the function fails with
`InvalidBase58PayloadLengthError { length: s.len() }` (note: the source
stores the byte length of the input string there, not the decoded payload
length); then the payload splits into a prefix byte and a 20-byte hash and
the prefix is matched against the four known constants. -/
def from_base58_str (decode_check : Base58DecodeCheck) (s : List Char) :
    Except Base58Error Address :=
  if 50 < utf8Len s then
    .error (.legacyAddressTooLong (utf8Len s))
  else
    match decode_check s with
    | none => .error .decode
    | some data =>
      if data.length = 21 then
        match data with
        | b0 :: rest =>
          if b0 = PUBKEY_ADDRESS_PREFIX_MAIN then
            .ok ⟨.unchecked, .p2pkh rest .main⟩
          else if b0 = PUBKEY_ADDRESS_PREFIX_TEST then
            .ok ⟨.unchecked, .p2pkh rest .test⟩
          else if b0 = SCRIPT_ADDRESS_PREFIX_MAIN then
            .ok ⟨.unchecked, .p2sh rest .main⟩
          else if b0 = SCRIPT_ADDRESS_PREFIX_TEST then
            .ok ⟨.unchecked, .p2sh rest .test⟩
          else
            .error (.invalidLegacyPrefix b0)
        | [] => .error (.invalidBase58PayloadLength (utf8Len s))
      else
        .error (.invalidBase58PayloadLength (utf8Len s))

/-- The type of the external `bech32::segwit::decode` collaborator: given
the input string it returns the human-readable part, the witness-version
symbol (an `Fe32`, hence in 0..=31) and the data payload, or `none` on any
bech32 decoding failure. -/
def Bech32SegwitDecode : Type :=
  List Char → Option (List Char × Nat × List Nat)

/-- Embeds `WitnessVersion::try_from` on a field element value: versions
0-16 are valid, anything larger is rejected (the error carries the invalid
value). -/
def WitnessVersion.try_from_num (n : Nat) : Except Nat Nat :=
  if n ≤ 16 then .ok n else .error n

/-- Embeds `KnownHrp::from_hrp`: the hrp is compared (case-insensitively,
per the external `bech32::Hrp` equality) against `bc`, the
testnet/signet hrp `tb`, and `bcrt`; anything else fails with an
`UnknownHrpError` carrying the lower-cased hrp. -/
def KnownHrp.from_hrp (hrp : List Char) : Except (List Char) KnownHrp :=
  if hrp.map Char.toLower = ['b', 'c'] then
    .ok .mainnet
  else if hrp.map Char.toLower = ['t', 'b'] then
    .ok .testnets
  else if hrp.map Char.toLower = ['b', 'c', 'r', 't'] then
    .ok .regtest
  else
    .error (hrp.map Char.toLower)

/-- Embeds `Address::<NetworkUnchecked>::from_bech32_str`, parameterized by
the external `bech32::segwit::decode` collaborator.  The witness program is
built directly from the decoded data: the source `.expect`s that the bech32
decoder only returns data of valid segwit program length, so no length
re-validation happens here. -/
def from_bech32_str (bech32_decode : Bech32SegwitDecode) (s : List Char) :
    Except Bech32Error Address :=
  match bech32_decode s with
  | none => .error .parseBech32
  | some (hrp, fe32, data) =>
    match WitnessVersion.try_from_num fe32 with
    | .error n => .error (.witnessVersion n)
    | .ok version =>
      let program : WitnessProgram := ⟨version, data⟩
      match KnownHrp.from_hrp hrp with
      | .error e => .error (.unknownHrp e)
      | .ok khrp => .ok ⟨.unchecked, .segwit program khrp⟩

/-- Rust `str::to_lowercase`, modelled character-wise (the inputs the
dispatcher inspects are ASCII prefixes, on which `Char.toLower` agrees with
the Rust function). -/
def toLowercase (s : List Char) : List Char :=
  s.map Char.toLower

/-- The segwit prefixes the dispatcher sniffs on the lower-cased input. -/
def segwitDispatchPrefixes : List (List Char) :=
  [['b', 'c', '1'], ['b', 'c', 'r', 't', '1'], ['t', 'b', '1']]

/-- The legacy prefixes the dispatcher sniffs on the original input. -/
def legacyDispatchPrefixes : List (List Char) :=
  [['1'], ['2'], ['3'], ['m'], ['n']]

/-- The characters of `s` strictly before the last occurrence of `'1'`, or
`none` if `s` contains no `'1'`.  This is `&s[..pos]` for
`pos = s.rfind('1')` in the source. -/
def beforeLastSep : List Char → Option (List Char)
  | [] => none
  | c :: cs =>
    match beforeLastSep cs with
    | some t => some (c :: t)
    | none => if c = '1' then some [] else none

/-- The diagnostic hrp used by the dispatcher's failure branch: the part of
the input before the last `'1'`, or the whole input when it has no `'1'`. -/
def unknownHrpDiagnostic (s : List Char) : List Char :=
  (beforeLastSep s).getD s

/-- Embeds `<Address<U> as FromStr>::from_str`, parameterized by the two
external codec collaborators and by the requested target validation state
`U` (which, as in the source, must implement the sealed
`NetworkValidationUnchecked` marker): if the lower-cased input starts with
`bc1`, `bcrt1` or `tb1` it is routed to the bech32 decoder; otherwise if
the original input starts with `1`, `2`, `3`, `m` or `n` it is routed to
the base58 decoder; otherwise it fails with `UnknownHrpError` carrying the
part of the input before the last `'1'` (or the whole input). -/
def from_str (bech32_decode : Bech32SegwitDecode)
    (decode_check : Base58DecodeCheck) (U : NV)
    (_hU : NetworkValidationUncheckedImpl U) (s : List Char) :
    Except ParseError Address :=
  if segwitDispatchPrefixes.any (fun p => p.isPrefixOf (toLowercase s)) then
    match from_bech32_str bech32_decode s with
    | .ok a => .ok ⟨U, a.inner⟩
    | .error e => .error (.bech32 e)
  else if legacyDispatchPrefixes.any (fun p => p.isPrefixOf s) then
    match from_base58_str decode_check s with
    | .ok a => .ok ⟨U, a.inner⟩
    | .error e => .error (.base58 e)
  else
    .error (.unknownHrp (unknownHrpDiagnostic s))

/-- Embeds `impl Deserialize for Address<U>` (`visit_str`): the string is
parsed as an `Address<NetworkUnchecked>` and the result re-wrapped at the
requested target state `U`, which the sealed bound restricts to
`NetworkUnchecked`. -/
def deserialize (bech32_decode : Bech32SegwitDecode)
    (decode_check : Base58DecodeCheck) (U : NV)
    (_hU : NetworkValidationUncheckedImpl U) (s : List Char) :
    Except ParseError Address :=
  match from_str bech32_decode decode_check .unchecked .unchecked s with
  | .ok a => .ok ⟨U, a.inner⟩
  | .error e => .error e

/-- Modelled from the spec: `ScriptBuf::new_p2pkh` from `crate::script`
(not in src); the P2PKH output template is
`OP_DUP OP_HASH160 <push 20 bytes> OP_EQUALVERIFY OP_CHECKSIG`. -/
def new_p2pkh (hash : List Nat) : List Nat :=
  0x76 :: 0xa9 :: 0x14 :: (hash ++ [0x88, 0xac])

/-- Modelled from the spec: `ScriptBuf::new_p2sh` from `crate::script`
(not in src); the P2SH output template is
`OP_HASH160 <push 20 bytes> OP_EQUAL`. -/
def new_p2sh (hash : List Nat) : List Nat :=
  0xa9 :: 0x14 :: (hash ++ [0x87])

/-- Modelled from the spec: the opcode that encodes a witness version at the
head of a witness-program script; `OP_PUSHBYTES_0` for version 0 and
`OP_PUSHNUM_v` (`0x50 + v`) for versions 1-16. -/
def witnessVersionOpcode (v : Nat) : Nat :=
  if v = 0 then 0x00 else 0x50 + v

/-- Modelled from the spec: `script::new_witness_program_unchecked` from
`crate::script` (not in src); the witness output template is
`<version-opcode> <push of the program bytes>`. -/
def new_witness_program_unchecked (v : Nat) (program : List Nat) : List Nat :=
  witnessVersionOpcode v :: program.length :: program

/-- Modelled from the spec: `Script::is_p2pkh` from `crate::script` (not in
src); checks the exact 25-byte P2PKH template. -/
def is_p2pkh (s : List Nat) : Bool :=
  decide (s.length = 25) && decide (s.take 3 = [0x76, 0xa9, 0x14]) &&
    decide (s.drop 23 = [0x88, 0xac])

/-- Modelled from the spec: `Script::is_p2sh` from `crate::script` (not in
src); checks the exact 23-byte P2SH template. -/
def is_p2sh (s : List Nat) : Bool :=
  decide (s.length = 23) && decide (s.take 2 = [0xa9, 0x14]) &&
    decide (s.drop 22 = [0x87])

/-- Tests whether a byte is a valid witness-version opcode (`OP_PUSHBYTES_0`
or `OP_PUSHNUM_1` .. `OP_PUSHNUM_16`). -/
def isWitnessVersionOpcode (b : Nat) : Bool :=
  decide (b = 0x00) || (decide (0x51 ≤ b) && decide (b ≤ 0x60))

/-- Modelled from the spec: `Script::is_witness_program` from `crate::script`
(not in src); a witness program script is a version opcode followed by a
single push of 2 to 40 bytes. -/
def is_witness_program (s : List Nat) : Bool :=
  match s with
  | b0 :: b1 :: rest =>
    isWitnessVersionOpcode b0 && decide (b1 = rest.length) &&
      decide (2 ≤ rest.length) && decide (rest.length ≤ 40)
  | _ => false

/-- Embeds `WitnessVersion::try_from` on an opcode byte: `OP_PUSHBYTES_0`
maps to version 0, `OP_PUSHNUM_1..16` map to versions 1-16, anything else is
rejected (the error carries the invalid opcode). -/
def WitnessVersion.try_from_opcode (b : Nat) : Except Nat Nat :=
  if b = 0x00 then .ok 0
  else if 0x51 ≤ b ∧ b ≤ 0x60 then .ok (b - 0x50)
  else .error b

/-- Errors of `Address::from_script` (`FromScriptError` in
`address/error.rs`, reconstructed from its uses in `address/mod.rs`). -/
inductive FromScriptError
  | unrecognizedScript
  | witnessVersion (invalid : Nat)
  | witnessProgram
deriving DecidableEq, Repr

/-- Modelled from the spec: `WitnessProgram::new` validates the
version-specific length rules at construction: 2-40 bytes always, and
exactly 20 or 32 bytes for version 0. -/
def WitnessProgram.new (version : Nat) (program : List Nat) :
    Except FromScriptError WitnessProgram :=
  if program.length < 2 ∨ 40 < program.length then .error .witnessProgram
  else if version = 0 ∧ ¬(program.length = 20 ∨ program.length = 32) then
    .error .witnessProgram
  else .ok ⟨version, program⟩

/-- Network parameters (`crate::network::Params`), reduced to the one field
`from_script` reads. -/
structure Params where
  network : Network
deriving DecidableEq, Repr

/-- Embeds `Address::from_script`: pattern-match the script against the
P2PKH, P2SH and witness-program templates (in that order), extracting the
fixed-offset byte ranges the match guarantees, and fail with
`UnrecognizedScript` otherwise. -/
def Address.from_script (s : List Nat) (params : Params) :
    Except FromScriptError Address :=
  if is_p2pkh s then
    .ok ⟨.checked, .p2pkh ((s.drop 3).take 20)
      (NetworkKind.ofNetwork params.network)⟩
  else if is_p2sh s then
    .ok ⟨.checked, .p2sh ((s.drop 2).take 20)
      (NetworkKind.ofNetwork params.network)⟩
  else if is_witness_program s then
    match WitnessVersion.try_from_opcode (s.headD 0) with
    | .error b => .error (.witnessVersion b)
    | .ok version =>
      match WitnessProgram.new version (s.drop 2) with
      | .error e => .error e
      | .ok program =>
        .ok ⟨.checked, .segwit program
          (KnownHrp.from_network params.network)⟩
  else
    .error .unrecognizedScript

/-- Embeds `Address::script_pubkey`: the output script that pays to this
address. -/
def Address.script_pubkey (a : Address) : List Nat :=
  match a.inner with
  | .p2pkh hash _ => new_p2pkh hash
  | .p2sh hash _ => new_p2sh hash
  | .segwit program _ =>
    new_witness_program_unchecked program.version program.program

/-- Embeds `Address::matches_script_pubkey`: compares the candidate script's
fixed-offset byte range with the address payload, guarded by the template
test for the address's own kind. -/
def Address.matches_script_pubkey (a : Address) (s : List Nat) : Bool :=
  match a.inner with
  | .p2pkh hash _ => is_p2pkh s && decide ((s.drop 3).take 20 = hash)
  | .p2sh hash _ => is_p2sh s && decide ((s.drop 2).take 20 = hash)
  | .segwit program _ =>
    is_witness_program s && decide (s.drop 2 = program.program)

/-- The relation between an address payload and the network it was
constructed for: legacy payloads carry the network kind derived from the
network, segwit payloads carry the hrp derived from it. -/
def AddressInner.forNetwork : AddressInner → Network → Prop
  | .p2pkh _ network, n => network = NetworkKind.ofNetwork n
  | .p2sh _ network, n => network = NetworkKind.ofNetwork n
  | .segwit _ hrp, n => hrp = KnownHrp.from_network n

/-- A concrete unchecked mainnet legacy address used in witnesses. -/
def sampleMainP2pkh : Address :=
  ⟨.unchecked, .p2pkh (List.replicate 20 5) .main⟩

/-- A concrete unchecked testnet-kind legacy address used in witnesses. -/
def sampleTestP2pkh : Address :=
  ⟨.unchecked, .p2pkh (List.replicate 20 6) .test⟩

/-- C1: for every unchecked address `a` and every network `N`,
`require_network a N` succeeds exactly when `is_valid_for_network a N` is
true; on success it returns the same payload re-tagged `Checked`, and on
mismatch it fails with a `NetworkMismatch` error carrying both the required
network `N` and the original address `a` unchanged. -/
theorem c1_require_network (a : Address) (N : Network) :
    ((∃ b, a.require_network N = .ok b) ↔ a.is_valid_for_network N = true) ∧
    (∀ b, a.require_network N = .ok b →
      b.inner = a.inner ∧ b.state = .checked) ∧
    (a.is_valid_for_network N = false →
      a.require_network N = .error (.networkValidation N a)) := by
  by_cases h : a.is_valid_for_network N
  · refine ⟨⟨fun _ => h, fun _ => ⟨a.assume_checked, ?_⟩⟩, ?_, ?_⟩
    · simp [Address.require_network, h]
    · intro b hb
      simp [Address.require_network, h] at hb
      subst hb
      exact ⟨rfl, rfl⟩
    · intro hfalse
      rw [h] at hfalse
      exact absurd hfalse (by simp)
  · rw [Bool.not_eq_true] at h
    refine ⟨⟨?_, ?_⟩, ?_, fun _ => ?_⟩
    · rintro ⟨b, hb⟩
      simp [Address.require_network, h] at hb
    · intro htrue
      rw [htrue] at h
      exact absurd h (by simp)
    · intro b hb
      simp [Address.require_network, h] at hb
    · simp [Address.require_network, h]

/-- Witness for C1: the mainnet legacy sample succeeds against `Bitcoin`
with the payload unchanged and the state checked, and the testnet-kind
sample fails against `Bitcoin` with the error carrying the network and the
untouched address. -/
theorem c1_require_network_witness :
    ((⟨.checked, .p2pkh (List.replicate 20 5) .main⟩ : Address).inner =
        sampleMainP2pkh.inner ∧
      (⟨.checked, .p2pkh (List.replicate 20 5) .main⟩ : Address).state =
        .checked) ∧
    sampleTestP2pkh.require_network .bitcoin =
      .error (.networkValidation .bitcoin sampleTestP2pkh) :=
  ⟨(c1_require_network sampleMainP2pkh .bitcoin).2.1
      ⟨.checked, .p2pkh (List.replicate 20 5) .main⟩ rfl,
    (c1_require_network sampleTestP2pkh .bitcoin).2.2 rfl⟩

/-- C2: a legacy address whose embedded kind is `Test` is valid for
testnet3, testnet4, signet and regtest and invalid for mainnet; a segwit
address whose embedded hrp is `Testnets` is valid for testnet3, testnet4
and signet and invalid for mainnet and regtest. -/
theorem c2_network_collapse (hash : List Nat) (p : WitnessProgram) :
    (Address.is_valid_for_network ⟨.unchecked, .p2pkh hash .test⟩
        (.testnet .v3) = true ∧
      Address.is_valid_for_network ⟨.unchecked, .p2pkh hash .test⟩
        (.testnet .v4) = true ∧
      Address.is_valid_for_network ⟨.unchecked, .p2pkh hash .test⟩
        .signet = true ∧
      Address.is_valid_for_network ⟨.unchecked, .p2pkh hash .test⟩
        .regtest = true ∧
      Address.is_valid_for_network ⟨.unchecked, .p2pkh hash .test⟩
        .bitcoin = false) ∧
    (Address.is_valid_for_network ⟨.unchecked, .p2sh hash .test⟩
        (.testnet .v3) = true ∧
      Address.is_valid_for_network ⟨.unchecked, .p2sh hash .test⟩
        (.testnet .v4) = true ∧
      Address.is_valid_for_network ⟨.unchecked, .p2sh hash .test⟩
        .signet = true ∧
      Address.is_valid_for_network ⟨.unchecked, .p2sh hash .test⟩
        .regtest = true ∧
      Address.is_valid_for_network ⟨.unchecked, .p2sh hash .test⟩
        .bitcoin = false) ∧
    (Address.is_valid_for_network ⟨.unchecked, .segwit p .testnets⟩
        (.testnet .v3) = true ∧
      Address.is_valid_for_network ⟨.unchecked, .segwit p .testnets⟩
        (.testnet .v4) = true ∧
      Address.is_valid_for_network ⟨.unchecked, .segwit p .testnets⟩
        .signet = true ∧
      Address.is_valid_for_network ⟨.unchecked, .segwit p .testnets⟩
        .bitcoin = false ∧
      Address.is_valid_for_network ⟨.unchecked, .segwit p .testnets⟩
        .regtest = false) :=
  ⟨⟨rfl, rfl, rfl, rfl, rfl⟩, ⟨rfl, rfl, rfl, rfl, rfl⟩,
    ⟨rfl, rfl, rfl, rfl, rfl⟩⟩

/-- Counterexample for C3: a segwit address tagged `Testnets` is not valid
for `Regtest` — `KnownHrp::from_network(Regtest)` is the distinct `Regtest`
tag, so the comparison fails. -/
theorem c3_counterexample :
    Address.is_valid_for_network
      ⟨.unchecked, .segwit ⟨0, List.replicate 20 1⟩ .testnets⟩
      .regtest = false := by decide

/-- C3 amended: for a segwit address whose embedded hrp is `Testnets`,
`is_valid_for_network` returns true exactly for testnet3, testnet4 and
signet; regtest (whose derived hrp is the separate `Regtest` tag) and
mainnet return false. -/
theorem c3_amended (p : WitnessProgram) :
    Address.is_valid_for_network ⟨.unchecked, .segwit p .testnets⟩
        (.testnet .v3) = true ∧
      Address.is_valid_for_network ⟨.unchecked, .segwit p .testnets⟩
        (.testnet .v4) = true ∧
      Address.is_valid_for_network ⟨.unchecked, .segwit p .testnets⟩
        .signet = true ∧
      Address.is_valid_for_network ⟨.unchecked, .segwit p .testnets⟩
        .regtest = false ∧
      Address.is_valid_for_network ⟨.unchecked, .segwit p .testnets⟩
        .bitcoin = false :=
  ⟨rfl, rfl, rfl, rfl, rfl⟩

lemma is_p2pkh_new_p2pkh (hash : List Nat) (hlen : hash.length = 20) :
    is_p2pkh (new_p2pkh hash) = true := by
  unfold is_p2pkh new_p2pkh
  have h1 : (0x76 :: 0xa9 :: 0x14 :: (hash ++ [0x88, 0xac])).length = 25 := by
    simp [hlen]
  have h2 : (0x76 :: 0xa9 :: 0x14 :: (hash ++ [0x88, 0xac])).take 3 =
      [0x76, 0xa9, 0x14] := rfl
  have h3 : (0x76 :: 0xa9 :: 0x14 :: (hash ++ [0x88, 0xac])).drop 23 =
      [0x88, 0xac] := by
    show (hash ++ [0x88, 0xac]).drop 20 = [0x88, 0xac]
    exact List.drop_left' hlen
  simp [h1, h2, h3]

lemma extract_p2pkh (hash : List Nat) (hlen : hash.length = 20) :
    ((new_p2pkh hash).drop 3).take 20 = hash := by
  show (hash ++ [0x88, 0xac]).take 20 = hash
  exact List.take_left' hlen

lemma is_p2pkh_new_p2sh (hash : List Nat) (hlen : hash.length = 20) :
    is_p2pkh (new_p2sh hash) = false := by
  unfold is_p2pkh new_p2sh
  have h1 : (0xa9 :: 0x14 :: (hash ++ [0x87])).length = 23 := by simp [hlen]
  simp [h1]

lemma is_p2sh_new_p2sh (hash : List Nat) (hlen : hash.length = 20) :
    is_p2sh (new_p2sh hash) = true := by
  unfold is_p2sh new_p2sh
  have h1 : (0xa9 :: 0x14 :: (hash ++ [0x87])).length = 23 := by simp [hlen]
  have h3 : (0xa9 :: 0x14 :: (hash ++ [0x87])).drop 22 = [0x87] := by
    show (hash ++ [0x87]).drop 20 = [0x87]
    exact List.drop_left' hlen
  simp [h1, h3]

lemma extract_p2sh (hash : List Nat) (hlen : hash.length = 20) :
    ((new_p2sh hash).drop 2).take 20 = hash := by
  show (hash ++ [0x87]).take 20 = hash
  exact List.take_left' hlen

lemma opcode_ne (v : Nat) (hv : v ≤ 16) :
    witnessVersionOpcode v ≠ 0x76 ∧ witnessVersionOpcode v ≠ 0xa9 := by
  unfold witnessVersionOpcode
  split <;> omega

lemma is_p2pkh_witness (v : Nat) (hv : v ≤ 16) (prog : List Nat) :
    is_p2pkh (new_witness_program_unchecked v prog) = false := by
  have h2 : (decide ((new_witness_program_unchecked v prog).take 3 =
      [0x76, 0xa9, 0x14])) = false := by
    rw [decide_eq_false_iff_not]
    intro hEq
    have hEq' : witnessVersionOpcode v :: prog.length :: prog.take 1 =
        [0x76, 0xa9, 0x14] := hEq
    injection hEq' with h76 _
    exact (opcode_ne v hv).1 h76
  unfold is_p2pkh
  rw [h2]
  simp

lemma is_p2sh_witness (v : Nat) (hv : v ≤ 16) (prog : List Nat) :
    is_p2sh (new_witness_program_unchecked v prog) = false := by
  have h2 : (decide ((new_witness_program_unchecked v prog).take 2 =
      [0xa9, 0x14])) = false := by
    rw [decide_eq_false_iff_not]
    intro hEq
    have hEq' : [witnessVersionOpcode v, prog.length] = [0xa9, 0x14] := hEq
    injection hEq' with ha9 _
    exact (opcode_ne v hv).2 ha9
  unfold is_p2sh
  rw [h2]
  simp

/-- C4: for every checked well-formed address `a` constructed for network
`N` (legacy kind and segwit hrp derived from `N`), converting its
`script_pubkey` back through `from_script` with the params of `N` returns
`Ok(a)`.  `script_pubkey` itself is a total Lean function, so totality and
determinism over constructed addresses hold by construction. -/
theorem c4_script_roundtrip (a : Address) (N : Network)
    (hwf : a.inner.wf) (hst : a.state = .checked)
    (hnet : a.inner.forNetwork N) :
    Address.from_script a.script_pubkey ⟨N⟩ = .ok a := by
  obtain ⟨st, inner⟩ := a
  cases hst
  cases inner with
  | p2pkh hash net =>
    have hlen : hash.length = 20 := hwf
    have hn : net = NetworkKind.ofNetwork N := hnet
    unfold Address.from_script
    rw [show (⟨.checked, .p2pkh hash net⟩ : Address).script_pubkey =
      new_p2pkh hash from rfl]
    rw [is_p2pkh_new_p2pkh hash hlen]
    simp only [if_true]
    rw [extract_p2pkh hash hlen, hn]
  | p2sh hash net =>
    have hlen : hash.length = 20 := hwf
    have hn : net = NetworkKind.ofNetwork N := hnet
    unfold Address.from_script
    rw [show (⟨.checked, .p2sh hash net⟩ : Address).script_pubkey =
      new_p2sh hash from rfl]
    rw [is_p2pkh_new_p2sh hash hlen, is_p2sh_new_p2sh hash hlen]
    simp only [Bool.false_eq_true, if_false, if_true]
    rw [extract_p2sh hash hlen, hn]
  | segwit p hrp =>
    obtain ⟨v, prog⟩ := p
    have hv : v ≤ 16 := hwf.1
    have hlb : 2 ≤ prog.length := hwf.2.1
    have hub : prog.length ≤ 40 := hwf.2.2.1
    have hv0 : v = 0 → prog.length = 20 ∨ prog.length = 32 := hwf.2.2.2
    have hh : hrp = KnownHrp.from_network N := hnet
    subst hh
    unfold Address.from_script
    rw [show (⟨.checked,
      .segwit ⟨v, prog⟩ (KnownHrp.from_network N)⟩ : Address).script_pubkey =
      new_witness_program_unchecked v prog from rfl]
    rw [is_p2pkh_witness v hv prog, is_p2sh_witness v hv prog]
    have hwp : is_witness_program (new_witness_program_unchecked v prog) =
        true := by
      unfold is_witness_program new_witness_program_unchecked
      have hop : isWitnessVersionOpcode (witnessVersionOpcode v) = true := by
        unfold isWitnessVersionOpcode witnessVersionOpcode
        by_cases h0 : v = 0
        · simp [h0]
        · rw [if_neg h0]
          simp only [Bool.or_eq_true, decide_eq_true_eq, Bool.and_eq_true]
          right
          omega
      simp [hop, hlb, hub]
    rw [hwp]
    simp only [Bool.false_eq_true, if_false, if_true]
    have htf : WitnessVersion.try_from_opcode
        ((new_witness_program_unchecked v prog).headD 0) = .ok v := by
      show WitnessVersion.try_from_opcode (witnessVersionOpcode v) = .ok v
      unfold WitnessVersion.try_from_opcode witnessVersionOpcode
      by_cases h0 : v = 0
      · simp [h0]
      · rw [if_neg h0, if_neg (by omega), if_pos (by omega)]
        congr 1
        omega
    rw [htf]
    show (match WitnessProgram.new v
        ((new_witness_program_unchecked v prog).drop 2) with
      | .error e => (Except.error e : Except FromScriptError Address)
      | .ok program =>
        .ok ⟨.checked, .segwit program (KnownHrp.from_network N)⟩) = _
    have hnew : WitnessProgram.new v
        ((new_witness_program_unchecked v prog).drop 2) = .ok ⟨v, prog⟩ := by
      show WitnessProgram.new v prog = .ok ⟨v, prog⟩
      unfold WitnessProgram.new
      rw [if_neg (by omega)]
      rw [if_neg (by rintro ⟨h0, hcon⟩; exact hcon (hv0 h0))]
    rw [hnew]

/-- Witness for C4: the roundtrip at a concrete mainnet P2PKH address. -/
theorem c4_script_roundtrip_witness :
    Address.from_script
      (Address.script_pubkey ⟨.checked, .p2pkh (List.replicate 20 5) .main⟩)
      ⟨.bitcoin⟩ =
      .ok ⟨.checked, .p2pkh (List.replicate 20 5) .main⟩ :=
  c4_script_roundtrip ⟨.checked, .p2pkh (List.replicate 20 5) .main⟩
    .bitcoin (by decide) rfl rfl

lemma take_take_drop_decomp (s : List Nat) (a b : Nat) :
    s = s.take a ++ (s.drop a).take b ++ s.drop (a + b) := by
  conv_lhs => rw [← List.take_append_drop a s]
  rw [List.append_assoc]
  congr 1
  conv_lhs => rw [← List.take_append_drop b (s.drop a)]
  congr 1
  exact List.drop_drop b a s

/-- Counterexample for C8: for a segwit address, `matches_script_pubkey`
compares only the program bytes of the candidate script, not its witness
version opcode: a version-1 script carrying the program of a version-0
address matches although it differs from the address's `script_pubkey`. -/
theorem c8_counterexample :
    Address.matches_script_pubkey
      ⟨.checked, .segwit ⟨0, List.replicate 20 7⟩ .mainnet⟩
      (0x51 :: 20 :: List.replicate 20 7) = true ∧
    (0x51 :: 20 :: List.replicate 20 7) ≠
      Address.script_pubkey
        ⟨.checked, .segwit ⟨0, List.replicate 20 7⟩ .mainnet⟩ := by
  decide

/-- C8 amended: for legacy addresses `matches_script_pubkey a s` is true
exactly when `s` equals `script_pubkey a`; for segwit addresses it is true
exactly when `s` is a witness-program script whose program bytes equal the
address's program — the witness version opcode of `s` is not compared. -/
theorem c8_amended (a : Address) (s : List Nat) (hwf : a.inner.wf) :
    a.matches_script_pubkey s = true ↔
      (match a.inner with
        | .p2pkh _ _ => s = a.script_pubkey
        | .p2sh _ _ => s = a.script_pubkey
        | .segwit p _ =>
          is_witness_program s = true ∧ s.drop 2 = p.program) := by
  obtain ⟨st, inner⟩ := a
  cases inner with
  | p2pkh hash net =>
    have hlen : hash.length = 20 := hwf
    show (is_p2pkh s && decide ((s.drop 3).take 20 = hash)) = true ↔
      s = new_p2pkh hash
    constructor
    · intro h
      rw [Bool.and_eq_true] at h
      obtain ⟨hp, hx⟩ := h
      rw [decide_eq_true_eq] at hx
      unfold is_p2pkh at hp
      simp only [Bool.and_eq_true, decide_eq_true_eq] at hp
      obtain ⟨⟨h25, h3⟩, h23⟩ := hp
      have := take_take_drop_decomp s 3 20
      rw [h3, hx] at this
      rw [show (3 + 20) = 23 from rfl, h23] at this
      rw [this]
      rfl
    · intro h
      rw [h, Bool.and_eq_true]
      exact ⟨is_p2pkh_new_p2pkh hash hlen,
        by rw [decide_eq_true_eq]; exact extract_p2pkh hash hlen⟩
  | p2sh hash net =>
    have hlen : hash.length = 20 := hwf
    show (is_p2sh s && decide ((s.drop 2).take 20 = hash)) = true ↔
      s = new_p2sh hash
    constructor
    · intro h
      rw [Bool.and_eq_true] at h
      obtain ⟨hp, hx⟩ := h
      rw [decide_eq_true_eq] at hx
      unfold is_p2sh at hp
      simp only [Bool.and_eq_true, decide_eq_true_eq] at hp
      obtain ⟨⟨h23, h2⟩, h22⟩ := hp
      have := take_take_drop_decomp s 2 20
      rw [h2, hx] at this
      rw [show (2 + 20) = 22 from rfl, h22] at this
      rw [this]
      rfl
    · intro h
      rw [h, Bool.and_eq_true]
      exact ⟨is_p2sh_new_p2sh hash hlen,
        by rw [decide_eq_true_eq]; exact extract_p2sh hash hlen⟩
  | segwit p hrp =>
    show (is_witness_program s && decide (s.drop 2 = p.program)) = true ↔
      is_witness_program s = true ∧ s.drop 2 = p.program
    rw [Bool.and_eq_true, decide_eq_true_eq]

/-- Witness for C8 amended: a concrete P2PKH address matches its own
script. -/
theorem c8_amended_witness :
    Address.matches_script_pubkey
      ⟨.checked, .p2pkh (List.replicate 20 5) .main⟩
      (new_p2pkh (List.replicate 20 5)) = true :=
  (c8_amended ⟨.checked, .p2pkh (List.replicate 20 5) .main⟩
    (new_p2pkh (List.replicate 20 5)) (by decide)).mpr rfl

/-- A concrete base58 decoder instance that always fails, used in closed
instances of theorems parameterized by the external codec. -/
def nullBase58Decoder : Base58DecodeCheck := fun _ => none

/-- A concrete bech32 decoder instance that always fails. -/
def nullBech32Decoder : Bech32SegwitDecode := fun _ => none

/-- A concrete base58 decoder instance that reports a successful decode to
a 20-byte payload, standing for an input string whose Base58Check payload
is 20 bytes. -/
def const20Base58Decoder : Base58DecodeCheck :=
  fun _ => some (List.replicate 20 0)

/-- A concrete base58 decoder instance decoding to a 21-byte mainnet
pubkey-hash payload. -/
def mainP2pkhBase58Decoder : Base58DecodeCheck :=
  fun _ => some (0x00 :: List.replicate 20 7)

/-- A concrete base58 decoder instance decoding to a 21-byte testnet
script-hash payload. -/
def testP2shBase58Decoder : Base58DecodeCheck :=
  fun _ => some (0xc4 :: List.replicate 20 9)

/-- Characterization of `beforeLastSep`: it is `none` exactly when the
string has no `'1'`, and when it is `some t`, `t` is the prefix of the
string up to its last `'1'`. -/
lemma beforeLastSep_spec (s : List Char) :
    (beforeLastSep s = none ↔ '1' ∉ s) ∧
    (∀ t, beforeLastSep s = some t → s = t ++ '1' :: (s.drop (t.length + 1)) ∧
      '1' ∉ s.drop (t.length + 1)) := by
  induction s with
  | nil =>
    constructor
    · simp [beforeLastSep]
    · intro t h
      simp [beforeLastSep] at h
  | cons c cs ih =>
    obtain ⟨ih1, ih2⟩ := ih
    have hstep : beforeLastSep (c :: cs) =
        (match beforeLastSep cs with
          | some u => some (c :: u)
          | none => if c = '1' then some [] else none) := rfl
    cases hb : beforeLastSep cs with
    | some u =>
      obtain ⟨hdec, hnot⟩ := ih2 u hb
      have hcs : '1' ∈ cs := by
        rw [hdec]
        exact List.mem_append_right _ (List.mem_cons_self _ _)
      rw [hstep, hb]
      constructor
      · constructor
        · intro h
          exact absurd h (by simp)
        · intro h
          exact absurd (List.mem_cons_of_mem c hcs) h
      · intro t h
        have ht : t = c :: u := by
          injection h with h'
          exact h'.symm
        subst ht
        constructor
        · show c :: cs = c :: (u ++ '1' :: cs.drop (u.length + 1))
          rw [← hdec]
        · exact hnot
    | none =>
      have hic : '1' ∉ cs := ih1.mp hb
      rw [hstep, hb]
      by_cases hc : c = '1'
      · rw [if_pos hc]
        constructor
        · constructor
          · intro h
            exact absurd h (by simp)
          · intro h
            exact absurd (by rw [hc]; exact List.mem_cons_self _ _) h
        · intro t h
          have ht : t = [] := by
            injection h with h'
            exact h'.symm
          subst ht
          subst hc
          exact ⟨rfl, hic⟩
      · rw [if_neg hc]
        constructor
        · constructor
          · intro _
            intro hmem
            rcases List.mem_cons.mp hmem with h | h
            · exact hc h.symm
            · exact hic h
          · intro _
            rfl
        · intro t h
          exact absurd h (by simp)

/-- Counterexample for C5: the fallback diagnostic is the substring before
the last `'1'` (the source uses `rfind`), not before the first one: for the
input `z1x1` the error carries `z1x`, while the substring before the first
`'1'` is `z`. -/
theorem c5_counterexample :
    from_str nullBech32Decoder nullBase58Decoder .unchecked .unchecked
      ['z', '1', 'x', '1'] = .error (.unknownHrp ['z', '1', 'x']) ∧
    ['z', '1', 'x'] ≠ ['z'] := ⟨rfl, by decide⟩

/-- C5 amended: for every input that, lower-cased, does not start with
`bc1`, `bcrt1` or `tb1` and does not start with `1`, `2`, `3`, `m` or `n`,
parsing fails with an `UnknownHrp` error whose payload is the substring of
the input before the *last* `'1'`, or the whole input if it contains no
`'1'`. -/
theorem c5_amended (bdec : Bech32SegwitDecode) (dc : Base58DecodeCheck)
    (s : List Char)
    (h1 : segwitDispatchPrefixes.any
      (fun p => p.isPrefixOf (toLowercase s)) = false)
    (h2 : legacyDispatchPrefixes.any (fun p => p.isPrefixOf s) = false) :
    from_str bdec dc .unchecked .unchecked s =
      .error (.unknownHrp (unknownHrpDiagnostic s)) ∧
    ('1' ∈ s → ∃ t, unknownHrpDiagnostic s ++ '1' :: t = s ∧ '1' ∉ t) ∧
    ('1' ∉ s → unknownHrpDiagnostic s = s) := by
  refine ⟨by simp [from_str, h1, h2], ?_, ?_⟩
  · intro hmem
    cases hb : beforeLastSep s with
    | none =>
      exact absurd ((beforeLastSep_spec s).1.mp hb) (by simp [hmem])
    | some t =>
      obtain ⟨hdec, hnot⟩ := (beforeLastSep_spec s).2 t hb
      refine ⟨s.drop (t.length + 1), ?_, hnot⟩
      unfold unknownHrpDiagnostic
      rw [hb]
      exact hdec.symm
  · intro hmem
    unfold unknownHrpDiagnostic
    rw [(beforeLastSep_spec s).1.mpr hmem]
    rfl


/-- Witness for C5 amended at the '1'-free input `zz`. -/
theorem c5_amended_witness :
    (from_str nullBech32Decoder nullBase58Decoder .unchecked .unchecked
      ['z', 'z'] = .error (.unknownHrp (unknownHrpDiagnostic ['z', 'z']))) ∧
    unknownHrpDiagnostic ['z', 'z'] = ['z', 'z'] :=
  ⟨(c5_amended nullBech32Decoder nullBase58Decoder ['z', 'z']
      (by decide) (by decide)).1,
    (c5_amended nullBech32Decoder nullBase58Decoder ['z', 'z']
      (by decide) (by decide)).2.2 (by decide)⟩

/-- C6 behavior at a failing input: when the external decoder succeeds
with a 20-byte payload on a 34-byte string, `from_base58_str` fails with
`InvalidBase58PayloadLengthError` carrying 34 — the byte length of the
input string — although the offending decoded-payload length is 20. -/
theorem c6_payload_length_error :
    const20Base58Decoder (List.replicate 34 'x') =
      some (List.replicate 20 0) ∧
    (List.replicate 20 0).length = 20 ∧
    utf8Len (List.replicate 34 'x') = 34 ∧
    from_base58_str const20Base58Decoder (List.replicate 34 'x') =
      .error (.invalidBase58PayloadLength 34) :=
  ⟨rfl, by decide, by decide, rfl⟩

/-- Counterexample for C7: the 50-character guard measures UTF-8 bytes
(`str::len`), not characters: a string of exactly 50 two-byte characters
does not pass the guard but fails with `AddressTooLong` carrying its byte
length 100. -/
theorem c7_counterexample :
    from_base58_str nullBase58Decoder (List.replicate 50 '¢') =
      .error (.legacyAddressTooLong 100) ∧
    (List.replicate 50 '¢').length = 50 := ⟨rfl, by decide⟩

/-- C7 amended: every input string longer than 50 UTF-8 bytes fails with
the `AddressTooLong` guard error carrying the string's byte length, and the
result does not depend on the base58 decoder (it is never invoked); strings
of at most 50 bytes pass the guard — their result is never the
`AddressTooLong` error. -/
theorem c7_amended (dc dc' : Base58DecodeCheck) (s : List Char) :
    (50 < utf8Len s →
      from_base58_str dc s = .error (.legacyAddressTooLong (utf8Len s)) ∧
      from_base58_str dc s = from_base58_str dc' s) ∧
    (utf8Len s ≤ 50 → ∀ k,
      from_base58_str dc s ≠ .error (.legacyAddressTooLong k)) := by
  constructor
  · intro h
    constructor
    · unfold from_base58_str
      rw [if_pos h]
    · unfold from_base58_str
      rw [if_pos h, if_pos h]
  · intro h k
    unfold from_base58_str
    rw [if_neg (by omega)]
    split
    · simp
    · split
      · split
        · split_ifs <;> simp
        · simp
      · simp

/-- Witness for C7 amended at 51- and 50-byte ASCII inputs. -/
theorem c7_amended_witness :
    (from_base58_str nullBase58Decoder (List.replicate 51 'x') =
      .error (.legacyAddressTooLong (utf8Len (List.replicate 51 'x')))) ∧
    from_base58_str nullBase58Decoder (List.replicate 50 'x') ≠
      .error (.legacyAddressTooLong 50) :=
  ⟨((c7_amended nullBase58Decoder nullBase58Decoder
      (List.replicate 51 'x')).1 (by decide)).1,
    (c7_amended nullBase58Decoder nullBase58Decoder
      (List.replicate 50 'x')).2 (by decide) 50⟩

/-- Every successful `from_str` result carries the requested validation
state `U` (the body rewraps the decoded payload at `U`). -/
lemma from_str_state (bdec : Bech32SegwitDecode) (dc : Base58DecodeCheck)
    (U : NV) (hU : NetworkValidationUncheckedImpl U) (s : List Char)
    (a : Address) (h : from_str bdec dc U hU s = .ok a) : a.state = U := by
  unfold from_str at h
  split at h
  · split at h
    · injection h with h'
      rw [← h']
    · exact absurd h (by simp)
  · split at h
    · split at h
      · injection h with h'
        rw [← h']
      · exact absurd h (by simp)
    · exact absurd h (by simp)

/-- C9: both `FromStr` parsing and deserialization, at any target
validation state `U` admitted by the sealed `NetworkValidationUnchecked`
bound, only ever produce an address in the `Unchecked` state. -/
theorem c9_parse_always_unchecked (U : NV)
    (hU : NetworkValidationUncheckedImpl U) (bdec : Bech32SegwitDecode)
    (dc : Base58DecodeCheck) (s : List Char) (a : Address) :
    (from_str bdec dc U hU s = .ok a → a.state = .unchecked) ∧
    (deserialize bdec dc U hU s = .ok a → a.state = .unchecked) := by
  have hUu : U = .unchecked := by cases hU; rfl
  subst hUu
  constructor
  · intro h
    exact from_str_state bdec dc .unchecked hU s a h
  · intro h
    unfold deserialize at h
    split at h
    · injection h with h'
      rw [← h']
    · exact absurd h (by simp)

/-- Witness for C9: concrete parse and deserialize successes whose results
are unchecked. -/
theorem c9_witness :
    (⟨.unchecked, .p2pkh (List.replicate 20 7) .main⟩ : Address).state =
      .unchecked ∧
    (⟨.unchecked, .p2sh (List.replicate 20 9) .test⟩ : Address).state =
      .unchecked :=
  ⟨(c9_parse_always_unchecked .unchecked .unchecked nullBech32Decoder
      mainP2pkhBase58Decoder ['1']
      ⟨.unchecked, .p2pkh (List.replicate 20 7) .main⟩).1 rfl,
    (c9_parse_always_unchecked .unchecked .unchecked nullBech32Decoder
      testP2shBase58Decoder ['2']
      ⟨.unchecked, .p2sh (List.replicate 20 9) .test⟩).2 rfl⟩

/-- C10: the segwit prefix test is applied to the lower-cased input, so
any input whose lower-casing starts with `bc1`, `bcrt1` or `tb1` (e.g. one
starting with `BC1`) is routed to the bech32 decoder, while the legacy
prefix test is case-sensitive on the original input, so inputs starting
with `M` or `N` are never routed to the base58 decoder and instead fail
with `UnknownHrp`. -/
theorem c10_case_sensitivity (bdec : Bech32SegwitDecode)
    (dc : Base58DecodeCheck) (s t : List Char) :
    (segwitDispatchPrefixes.any
        (fun p => p.isPrefixOf (toLowercase s)) = true →
      from_str bdec dc .unchecked .unchecked s =
        (match from_bech32_str bdec s with
          | .ok a => .ok ⟨.unchecked, a.inner⟩
          | .error e => .error (.bech32 e))) ∧
    from_str bdec dc .unchecked .unchecked ('M' :: t) =
      .error (.unknownHrp (unknownHrpDiagnostic ('M' :: t))) ∧
    from_str bdec dc .unchecked .unchecked ('N' :: t) =
      .error (.unknownHrp (unknownHrpDiagnostic ('N' :: t))) := by
  refine ⟨?_, rfl, rfl⟩
  intro h
  unfold from_str
  rw [h]
  simp

/-- Witness for C10 at the input `BC1q` (routed to bech32) and `Mx`
(unknown hrp). -/
theorem c10_witness :
    (from_str nullBech32Decoder nullBase58Decoder .unchecked .unchecked
      ['B', 'C', '1', 'q'] =
      (match from_bech32_str nullBech32Decoder ['B', 'C', '1', 'q'] with
        | .ok a => .ok ⟨.unchecked, a.inner⟩
        | .error e => .error (.bech32 e))) ∧
    from_str nullBech32Decoder nullBase58Decoder .unchecked .unchecked
      ['M', 'x'] = .error (.unknownHrp (unknownHrpDiagnostic ['M', 'x'])) :=
  ⟨(c10_case_sensitivity nullBech32Decoder nullBase58Decoder
      ['B', 'C', '1', 'q'] ['x']).1 (by decide),
    (c10_case_sensitivity nullBech32Decoder nullBase58Decoder
      ['B', 'C', '1', 'q'] ['x']).2.1⟩

end BitcoinAddress
